import Mathlib

/-!
Shallow embedding of the resumable video-analysis pipeline
(src/models.py, src/pipeline.py, src/instagram.py, src/analyzer.py).

External effects (file system, network, the Gemini client, `time.sleep`)
are modelled by explicit oracle parameters and event traces; the control
flow of each embedded function follows the Python source line by line.
-/

namespace Pipeline

/-! ### Data model (src/models.py, src/instagram.py) -/

/-- `ExerciseAnalysis` from src/models.py. -/
structure ExerciseAnalysis where
  muscle_group : String
  machine : String
  wrong_way : String
  correct_way : String
  trainer_insights : String
deriving DecidableEq

/-- `GeneralInsights` from src/models.py. -/
structure GeneralInsights where
  trainer_insights : String
  video_type : String
deriving DecidableEq

/-- `VideoResult` from src/models.py: one line of the results (sink) file. -/
structure VideoResult where
  shortcode : String
  url : String
  is_exercise_video : Bool
  exercise_analysis : Option ExerciseAnalysis := none
  general_insights : Option GeneralInsights := none
  error : Option String := none
deriving DecidableEq

/-- `ProgressState` from src/models.py: the durable progress ledger. -/
structure ProgressState where
  profile : String
  processed_shortcodes : List String
  results_file : String
deriving DecidableEq

/-- `VideoPost` from src/instagram.py: one work item. -/
structure VideoPost where
  shortcode : String
  url : String
  video_url : String
  caption : Option String := none
deriving DecidableEq

/-- `VideoList` from src/instagram.py. -/
structure VideoList where
  profile : String
  videos : List VideoPost
deriving DecidableEq

/-! ### Ledger load/save (src/pipeline.py lines 15-52) -/

/-- `_get_progress_file` (src/pipeline.py lines 15-17), as a path string. -/
def get_progress_file (profile output_dir : String) : String :=
  output_dir ++ "/.progress_" ++ profile ++ ".json"

/-- `_get_results_file` (src/pipeline.py lines 20-22), as a path string. -/
def get_results_file (profile output_dir : String) : String :=
  output_dir ++ "/results_" ++ profile ++ ".jsonl"

/-- The fresh `ProgressState` built at the end of `_load_progress`
(src/pipeline.py lines 42-46). -/
def freshProgress (profile output_dir : String) : ProgressState :=
  { profile := profile
    processed_shortcodes := []
    results_file := get_results_file profile output_dir }

/-- `_load_progress` (src/pipeline.py lines 25-46).  The file system is
abstracted by two inputs: `progressFileExists` models
`progress_file.exists()`, and `parsed` models the combined result of
`json.loads` plus `ProgressState.model_validate` — `some state` when the
content parses and validates, `none` when any exception is raised. -/
def load_progress (profile output_dir : String)
    (progressFileExists : Bool) (parsed : Option ProgressState) : ProgressState :=
  if progressFileExists then
    match parsed with
    | some state => state
    | none => freshProgress profile output_dir
  else freshProgress profile output_dir

/-! ### Item processing (src/pipeline.py lines 61-78, src/analyzer.py) -/

/-- Per-run oracles for the two external calls made by `_process_video`:
`crawler.download_video` (which either returns or raises, the raise carrying
a message) and `analyzer.analyze` (which always returns a `VideoResult`,
since `VideoAnalyzer.analyze` catches every exception internally). -/
structure Oracles where
  download : VideoPost → Except String Unit
  analyze : VideoPost → VideoResult

/-- The return path of `_process_video` (src/pipeline.py lines 61-78):
download, then analyze.  There is no `except` clause in the source — only a
`try/finally` for temp-file cleanup — so an exception raised by
`download_video` propagates to the caller (modelled as `Except.error`). -/
def process_video (o : Oracles) (post : VideoPost) : Except String VideoResult :=
  match o.download post with
  | Except.error e => Except.error e
  | Except.ok _ => Except.ok (o.analyze post)

/-- Environment for one `VideoAnalyzer.analyze` call (src/analyzer.py):
the result of `_upload_video` (may raise), of the primary-schema analysis
plus validation (may raise), and of the fallback-schema analysis plus
validation (may raise). -/
structure AnalyzerEnv where
  upload : Except String Unit
  primarySchema : Except String ExerciseAnalysis
  fallbackSchema : Except String GeneralInsights

/-- `VideoAnalyzer.analyze` (src/analyzer.py lines 101-160): upload, try
the exercise schema, fall back to the general schema on any exception, and
convert any exception of the upload or of the fallback into a `VideoResult`
carrying the exception message in `error`.  This function never raises. -/
def VideoAnalyzer.analyze (env : AnalyzerEnv) (shortcode : String) : VideoResult :=
  let url := "https://www.instagram.com/p/" ++ shortcode ++ "/"
  match env.upload with
  | Except.error e =>
      { shortcode := shortcode, url := url, is_exercise_video := false, error := some e }
  | Except.ok _ =>
    match env.primarySchema with
    | Except.ok ea =>
        { shortcode := shortcode, url := url, is_exercise_video := true,
          exercise_analysis := some ea }
    | Except.error _ =>
      match env.fallbackSchema with
      | Except.ok gi =>
          { shortcode := shortcode, url := url, is_exercise_video := false,
            general_insights := some gi }
      | Except.error e =>
          { shortcode := shortcode, url := url, is_exercise_video := false,
            error := some e }

/-! ### Temp-file lifecycle of `_process_video` (src/pipeline.py lines 67-78) -/

/-- Behaviour of one `_process_video` call as it affects its temporary
file: the download's result, whether the temporary file still exists when
the download returns or raises, and the analyzer's result. -/
structure ProcessFs where
  downloadResult : Except String Unit
  fileAfterDownload : Bool
  analyzeResult : VideoResult

/-- `_process_video` with its temp-file lifecycle (src/pipeline.py lines
67-78): `NamedTemporaryFile(delete=False)` creates the file, the `try`
block downloads and analyzes, and the `finally` block runs
`if video_path.exists(): video_path.unlink()` on every exit path.
Returns the call's outcome together with whether the temporary file still
exists after the call returns. -/
def process_video_fs (b : ProcessFs) : Except String VideoResult × Bool :=
  let body : Except String VideoResult × Bool :=
    match b.downloadResult with
    | Except.error e => (Except.error e, b.fileAfterDownload)
    | Except.ok _ => (Except.ok b.analyzeResult, b.fileAfterDownload)
  match body with
  | (res, ex) => (res, if ex then false else ex)

/-! ### The driver loop (src/pipeline.py lines 81-165) -/

/-- Observable events of one driver run, in order. -/
inductive Event where
  | downloadCall (shortcode : String)
  | analyzerCall (shortcode : String)
  | sinkAppend (shortcode : String)
  | ledgerAppend (shortcode : String)
  | ledgerSave
deriving DecidableEq

/-- Driver-owned state during `run_pipeline_from_file`: the in-memory
`ProgressState`, the content of the results (sink) file, the event trace,
and the two counters. -/
structure DriverState where
  state : ProgressState
  sink : List VideoResult
  trace : List Event
  processed_count : Nat
  error_count : Nat
deriving DecidableEq

/-- One iteration of the driver's `for post in videos_to_process` loop
(src/pipeline.py lines 127-155).  `_process_video` downloads then analyzes;
an exception from the download is caught by the loop's `except Exception`
(error counted, ledger untouched).  A returned result with `error` set is
counted as an error and not recorded; a result without `error` is appended
to the sink, then the shortcode is appended to the ledger, then the ledger
is saved. -/
def driverStep (o : Oracles) (ds : DriverState) (post : VideoPost) : DriverState :=
  match o.download post with
  | Except.error _ =>
      { ds with trace := ds.trace ++ [Event.downloadCall post.shortcode]
                error_count := ds.error_count + 1 }
  | Except.ok _ =>
    match (o.analyze post).error with
    | some _ =>
        { ds with
            trace := ds.trace ++
              [Event.downloadCall post.shortcode, Event.analyzerCall post.shortcode]
            error_count := ds.error_count + 1 }
    | none =>
        { state := { ds.state with
            processed_shortcodes := ds.state.processed_shortcodes ++ [post.shortcode] }
          sink := ds.sink ++ [o.analyze post]
          trace := ds.trace ++
            [Event.downloadCall post.shortcode, Event.analyzerCall post.shortcode,
             Event.sinkAppend post.shortcode, Event.ledgerAppend post.shortcode,
             Event.ledgerSave]
          processed_count := ds.processed_count + 1
          error_count := ds.error_count }

/-- The driver's loop over the filtered item list. -/
def runItems (o : Oracles) (ds : DriverState) : List VideoPost → DriverState
  | [] => ds
  | v :: vs => runItems o (driverStep o ds v) vs

/-- Python slice `l[:n]` for an `int` bound `n` (negative bounds count from
the end), used by `videos_to_process[:max_videos]`. -/
def pySlice (n : Int) (l : List VideoPost) : List VideoPost :=
  if 0 ≤ n then l.take n.toNat else l.take ((l.length : Int) + n).toNat

/-- The cap application `if max_videos: videos_to_process =
videos_to_process[:max_videos]` (src/pipeline.py lines 115-116).  `none`
models `None`; `some 0` is falsy in Python, so no cap is applied. -/
def applyCap (max_videos : Option Int) (l : List VideoPost) : List VideoPost :=
  match max_videos with
  | none => l
  | some n => if n = 0 then l else pySlice n l

/-- The filter `[v for v in video_list.videos if v.shortcode not in
skip_shortcodes]` (src/pipeline.py lines 111-113). -/
def eligible (videos : List VideoPost) (skip : List String) : List VideoPost :=
  videos.filter (fun v => decide (v.shortcode ∉ skip))

/-- The skip set of a run: the `processed_shortcodes` of the loaded ledger
(src/pipeline.py lines 102-104). -/
def skipOf (vl : VideoList) (output_dir : String)
    (progressFileExists : Bool) (parsed : Option ProgressState) : List String :=
  (load_progress vl.profile output_dir progressFileExists parsed).processed_shortcodes

/-- The `videos_to_process` list of a run (src/pipeline.py lines 111-116). -/
def videosToProcess (vl : VideoList) (output_dir : String)
    (progressFileExists : Bool) (parsed : Option ProgressState)
    (max_videos : Option Int) : List VideoPost :=
  applyCap max_videos (eligible vl.videos (skipOf vl output_dir progressFileExists parsed))

/-- `run_pipeline_from_file` (src/pipeline.py lines 81-165): load the
ledger, filter out completed shortcodes, apply the optional cap, and fold
the per-item step over the remaining items.  `sink0` is the pre-existing
content of the results file (it is opened in append mode). -/
def run_pipeline_from_file (o : Oracles) (vl : VideoList) (output_dir : String)
    (progressFileExists : Bool) (parsed : Option ProgressState)
    (max_videos : Option Int) (sink0 : List VideoResult) : DriverState :=
  runItems o
    { state := load_progress vl.profile output_dir progressFileExists parsed
      sink := sink0
      trace := []
      processed_count := 0
      error_count := 0 }
    (videosToProcess vl output_dir progressFileExists parsed max_videos)

/-! ### Outcome classification and trace projections -/

/-- Whether the download oracle returns normally for `v`. -/
def downloadOk (o : Oracles) (v : VideoPost) : Bool :=
  match o.download v with
  | Except.error _ => false
  | Except.ok _ => true

/-- Whether item `v` ends in a Success outcome in this run: the download
returns and the analyzer result carries no error. -/
def itemSucceeds (o : Oracles) (v : VideoPost) : Bool :=
  match o.download v with
  | Except.error _ => false
  | Except.ok _ =>
    match (o.analyze v).error with
    | some _ => false
    | none => true

/-- The items of `items` that end in a Success outcome, in order. -/
def successes (o : Oracles) (items : List VideoPost) : List VideoPost :=
  items.filter (itemSucceeds o)

/-- The events one loop iteration emits for item `v`. -/
def itemTrace (o : Oracles) (v : VideoPost) : List Event :=
  match o.download v with
  | Except.error _ => [Event.downloadCall v.shortcode]
  | Except.ok _ =>
    match (o.analyze v).error with
    | some _ => [Event.downloadCall v.shortcode, Event.analyzerCall v.shortcode]
    | none => [Event.downloadCall v.shortcode, Event.analyzerCall v.shortcode,
               Event.sinkAppend v.shortcode, Event.ledgerAppend v.shortcode,
               Event.ledgerSave]

/-- Concatenated per-item traces. -/
def itemsTrace (o : Oracles) : List VideoPost → List Event
  | [] => []
  | v :: vs => itemTrace o v ++ itemsTrace o vs

/-- Shortcodes of the items handed to `_process_video` (one `downloadCall`
event per attempted item), in order. -/
def attempted (tr : List Event) : List String :=
  tr.filterMap (fun e =>
    match e with
    | Event.downloadCall s => some s
    | _ => none)

/-- Shortcodes of the `analyzer.analyze` invocations, in order. -/
def analyzerCalls (tr : List Event) : List String :=
  tr.filterMap (fun e =>
    match e with
    | Event.analyzerCall s => some s
    | _ => none)

/-- The sub-trace of sink and ledger writes, in order. -/
def commitEvents (tr : List Event) : List Event :=
  tr.filter (fun e =>
    match e with
    | Event.sinkAppend _ => true
    | Event.ledgerAppend _ => true
    | _ => false)

/-- The commit events an all-success item list produces: for each item,
its sink append immediately followed by its ledger append. -/
def commitsOf : List VideoPost → List Event
  | [] => []
  | v :: vs => Event.sinkAppend v.shortcode :: Event.ledgerAppend v.shortcode :: commitsOf vs

/-! ### Lemmas: one driver-loop iteration -/

theorem driverStep_trace (o : Oracles) (ds : DriverState) (v : VideoPost) :
    (driverStep o ds v).trace = ds.trace ++ itemTrace o v := by
  unfold driverStep itemTrace
  cases hd : o.download v with
  | error e => rfl
  | ok u =>
    cases ha : (o.analyze v).error with
    | none => rfl
    | some s => rfl

theorem driverStep_ledger (o : Oracles) (ds : DriverState) (v : VideoPost) :
    (driverStep o ds v).state.processed_shortcodes
      = ds.state.processed_shortcodes
          ++ (if itemSucceeds o v then [v.shortcode] else []) := by
  unfold driverStep itemSucceeds
  cases hd : o.download v with
  | error e => simp
  | ok u =>
    cases ha : (o.analyze v).error with
    | none => simp
    | some s => simp

theorem driverStep_sink (o : Oracles) (ds : DriverState) (v : VideoPost) :
    (driverStep o ds v).sink
      = ds.sink ++ (if itemSucceeds o v then [o.analyze v] else []) := by
  unfold driverStep itemSucceeds
  cases hd : o.download v with
  | error e => simp
  | ok u =>
    cases ha : (o.analyze v).error with
    | none => simp
    | some s => simp

/-! ### Lemmas: the whole loop -/

theorem runItems_trace (o : Oracles) (items : List VideoPost) :
    ∀ ds : DriverState, (runItems o ds items).trace = ds.trace ++ itemsTrace o items := by
  induction items with
  | nil => intro ds; simp [runItems, itemsTrace]
  | cons v vs ih =>
    intro ds
    simp only [runItems, itemsTrace]
    rw [ih, driverStep_trace, List.append_assoc]

theorem runItems_ledger (o : Oracles) (items : List VideoPost) :
    ∀ ds : DriverState,
      (runItems o ds items).state.processed_shortcodes
        = ds.state.processed_shortcodes
            ++ (successes o items).map (fun v => v.shortcode) := by
  induction items with
  | nil => intro ds; simp [runItems, successes]
  | cons v vs ih =>
    intro ds
    simp only [runItems]
    rw [ih, driverStep_ledger]
    cases h : itemSucceeds o v <;>
      simp [successes, List.filter_cons, h, List.append_assoc]

theorem runItems_sink (o : Oracles) (items : List VideoPost) :
    ∀ ds : DriverState,
      (runItems o ds items).sink
        = ds.sink ++ (successes o items).map o.analyze := by
  induction items with
  | nil => intro ds; simp [runItems, successes]
  | cons v vs ih =>
    intro ds
    simp only [runItems]
    rw [ih, driverStep_sink]
    cases h : itemSucceeds o v <;>
      simp [successes, List.filter_cons, h, List.append_assoc]

/-! ### Lemmas: trace projections -/

theorem attempted_append (t1 t2 : List Event) :
    attempted (t1 ++ t2) = attempted t1 ++ attempted t2 := by
  simp [attempted]

theorem analyzerCalls_append (t1 t2 : List Event) :
    analyzerCalls (t1 ++ t2) = analyzerCalls t1 ++ analyzerCalls t2 := by
  simp [analyzerCalls]

theorem commitEvents_append (t1 t2 : List Event) :
    commitEvents (t1 ++ t2) = commitEvents t1 ++ commitEvents t2 := by
  simp [commitEvents]

theorem attempted_itemTrace (o : Oracles) (v : VideoPost) :
    attempted (itemTrace o v) = [v.shortcode] := by
  unfold itemTrace
  cases hd : o.download v with
  | error e => rfl
  | ok u => cases ha : (o.analyze v).error <;> rfl

theorem attempted_itemsTrace (o : Oracles) (items : List VideoPost) :
    attempted (itemsTrace o items) = items.map (fun v => v.shortcode) := by
  induction items with
  | nil => rfl
  | cons v vs ih =>
    rw [itemsTrace, attempted_append, attempted_itemTrace, ih]
    rfl

theorem analyzerCalls_itemTrace (o : Oracles) (v : VideoPost) :
    analyzerCalls (itemTrace o v)
      = if downloadOk o v then [v.shortcode] else [] := by
  unfold itemTrace downloadOk
  cases hd : o.download v with
  | error e => rfl
  | ok u => cases ha : (o.analyze v).error <;> rfl

theorem analyzerCalls_itemsTrace (o : Oracles) (items : List VideoPost) :
    analyzerCalls (itemsTrace o items)
      = (items.filter (downloadOk o)).map (fun v => v.shortcode) := by
  induction items with
  | nil => rfl
  | cons v vs ih =>
    rw [itemsTrace, analyzerCalls_append, analyzerCalls_itemTrace, ih]
    cases h : downloadOk o v <;> simp [List.filter_cons, h]

theorem commitEvents_itemTrace (o : Oracles) (v : VideoPost) :
    commitEvents (itemTrace o v)
      = if itemSucceeds o v
          then [Event.sinkAppend v.shortcode, Event.ledgerAppend v.shortcode]
          else [] := by
  unfold itemTrace itemSucceeds
  cases hd : o.download v with
  | error e => rfl
  | ok u => cases ha : (o.analyze v).error <;> rfl

theorem commitEvents_itemsTrace (o : Oracles) (items : List VideoPost) :
    commitEvents (itemsTrace o items) = commitsOf (successes o items) := by
  induction items with
  | nil => rfl
  | cons v vs ih =>
    rw [itemsTrace, commitEvents_append, commitEvents_itemTrace, ih]
    cases h : itemSucceeds o v <;>
      simp [successes, List.filter_cons, h, commitsOf]

/-! ### Lemmas: whole-run characterizations -/

theorem run_trace (o : Oracles) (vl : VideoList) (od : String) (pe : Bool)
    (pp : Option ProgressState) (cap : Option Int) (sink0 : List VideoResult) :
    (run_pipeline_from_file o vl od pe pp cap sink0).trace
      = itemsTrace o (videosToProcess vl od pe pp cap) := by
  unfold run_pipeline_from_file
  rw [runItems_trace]
  rfl

theorem run_ledger (o : Oracles) (vl : VideoList) (od : String) (pe : Bool)
    (pp : Option ProgressState) (cap : Option Int) (sink0 : List VideoResult) :
    (run_pipeline_from_file o vl od pe pp cap sink0).state.processed_shortcodes
      = skipOf vl od pe pp
          ++ (successes o (videosToProcess vl od pe pp cap)).map (fun v => v.shortcode) := by
  unfold run_pipeline_from_file skipOf
  rw [runItems_ledger]

theorem run_sink (o : Oracles) (vl : VideoList) (od : String) (pe : Bool)
    (pp : Option ProgressState) (cap : Option Int) (sink0 : List VideoResult) :
    (run_pipeline_from_file o vl od pe pp cap sink0).sink
      = sink0 ++ (successes o (videosToProcess vl od pe pp cap)).map o.analyze := by
  unfold run_pipeline_from_file
  rw [runItems_sink]

/-! ### Rate-Limited Retry Wrapper (tenacity `@retry`, as configured in
src/instagram.py and src/analyzer.py) -/

/-- Exception kinds raised by the wrapped operations: the instaloader
exception classes named in src/instagram.py plus generic `Exception`
subclasses. -/
inductive PyExc where
  | connectionException (msg : String)
  | queryReturnedBadRequest (msg : String)
  | tooManyRequests (msg : String)
  | runtimeError (msg : String)
  | otherError (msg : String)
deriving DecidableEq

/-- `retry_if_exception_type((ConnectionException,
QueryReturnedBadRequestException))`. -/
def isConnectionOrBadRequest : PyExc → Bool
  | PyExc.connectionException _ => true
  | PyExc.queryReturnedBadRequest _ => true
  | _ => false

/-- `retry_if_exception_type(Exception)`: every modelled kind is an
`Exception` subclass. -/
def anyException : PyExc → Bool := fun _ => true

/-- Parameters of tenacity `wait_exponential` (exp_base is left at 2). -/
structure WaitExponential where
  multiplier : Nat
  min : Nat
  max : Nat
deriving DecidableEq

/-- tenacity `wait_exponential.__call__`: with 1-based `attempt_number`,
`result = multiplier * 2 ^ (attempt_number - 1)`, and the returned delay is
`max(max(0, min), min(result, max))`. -/
def waitExponential (w : WaitExponential) (attempt_number : Nat) : Nat :=
  Nat.max (Nat.max 0 w.min) (Nat.min (w.multiplier * 2 ^ (attempt_number - 1)) w.max)

/-- The spec's backoff formula `clamp(x, lo, hi)`. -/
def clamp (x lo hi : Nat) : Nat := Nat.max lo (Nat.min x hi)

/-- One tenacity `@retry(...)` decoration: which exceptions are retryable
(`retry=`), the `stop_after_attempt` bound, and the `wait_exponential`
parameters. -/
structure RetryPolicy where
  retryOn : PyExc → Bool
  maxAttempts : Nat
  wait : WaitExponential

/-- Result of a tenacity-wrapped call, with the list of back-off sleeps
performed: normal return, a non-retryable exception propagated as-is, or a
`RetryError` wrapping the last exception after the attempt budget is
spent. -/
inductive RetryOutcome (α : Type) where
  | ok (value : α) (sleeps : List Nat)
  | raised (e : PyExc) (sleeps : List Nat)
  | retryError (lastExc : PyExc) (sleeps : List Nat)
deriving DecidableEq

/-- tenacity's retry loop: run the attempt; on success return; on a
non-retryable exception re-raise; on a retryable one, stop with
`RetryError` once `attempt_number >= maxAttempts` (`stop_after_attempt`),
otherwise sleep `wait_exponential(attempt_number)` and re-attempt.  `fuel`
only bounds the recursion; the top-level call passes `maxAttempts`, which
the stop condition never lets the loop undershoot. -/
def retryGo (p : RetryPolicy) (op : Nat → Except PyExc α) :
    Nat → Nat → List Nat → RetryOutcome α
  | 0, _, sleeps => RetryOutcome.retryError (PyExc.runtimeError "no attempts") sleeps
  | fuel + 1, attempt_number, sleeps =>
    match op attempt_number with
    | Except.ok a => RetryOutcome.ok a sleeps
    | Except.error e =>
      if p.retryOn e then
        if p.maxAttempts ≤ attempt_number then RetryOutcome.retryError e sleeps
        else retryGo p op fuel (attempt_number + 1)
               (sleeps ++ [waitExponential p.wait attempt_number])
      else RetryOutcome.raised e sleeps

/-- Call a tenacity-decorated operation; attempts are numbered from 1. -/
def retryCall (p : RetryPolicy) (op : Nat → Except PyExc α) : RetryOutcome α :=
  retryGo p op p.maxAttempts 1 []

/-- The `@retry` decoration on `InstagramCrawler._get_profile`
(src/instagram.py lines 155-164). -/
def get_profile_policy : RetryPolicy :=
  { retryOn := isConnectionOrBadRequest
    maxAttempts := 3
    wait := { multiplier := 60, min := 60, max := 300 } }

/-- The `@retry` decoration on `VideoAnalyzer._upload_video`
(src/analyzer.py lines 49-56). -/
def upload_video_policy : RetryPolicy :=
  { retryOn := anyException
    maxAttempts := 3
    wait := { multiplier := 10, min := 10, max := 120 } }

/-- The `@retry` decoration on `InstagramCrawler.download_video`
(src/instagram.py lines 294-298). -/
def download_video_policy : RetryPolicy :=
  { retryOn := anyException
    maxAttempts := 3
    wait := { multiplier := 5, min := 5, max := 60 } }

/-- Events of the body of one `download_video` attempt. -/
inductive NetEvent where
  | sleepFor (seconds : ℚ)
  | urlretrieve (url : String)
deriving DecidableEq

/-- `_sleep_with_jitter` (src/instagram.py lines 34-37): sleep
`base + uniform(0, DELAY_JITTER_SECONDS)`; the sampled jitter value is
passed in explicitly. -/
def sleep_with_jitter (base jitter : ℚ) : NetEvent :=
  NetEvent.sleepFor (base + jitter)

/-- The body of one `download_video` attempt (src/instagram.py lines
299-304): a jittered throttle sleep with the default base
`BASE_DELAY_SECONDS = 5`, then the network call. -/
def download_video_body (jitter : ℚ) (video_url : String) : List NetEvent :=
  [sleep_with_jitter 5 jitter, NetEvent.urlretrieve video_url]

/-- Unfolding: a failed retryable attempt below the stop bound sleeps and
re-attempts. -/
theorem retryGo_step_fail (p : RetryPolicy) (op : Nat → Except PyExc α)
    (fuel an : Nat) (sleeps : List Nat) (e : PyExc)
    (hop : op an = Except.error e) (hre : p.retryOn e = true)
    (hlt : an < p.maxAttempts) :
    retryGo p op (fuel + 1) an sleeps
      = retryGo p op fuel (an + 1) (sleeps ++ [waitExponential p.wait an]) := by
  simp only [retryGo]
  rw [hop]
  simp [hre, Nat.not_le.2 hlt]

/-- Unfolding: a successful attempt returns at once. -/
theorem retryGo_step_ok (p : RetryPolicy) (op : Nat → Except PyExc α)
    (fuel an : Nat) (sleeps : List Nat) (v : α) (hop : op an = Except.ok v) :
    retryGo p op (fuel + 1) an sleeps = RetryOutcome.ok v sleeps := by
  simp only [retryGo]
  rw [hop]

/-! ### Concrete fixtures -/

/-- Work item with identifier A. -/
def postA : VideoPost :=
  { shortcode := "A", url := "https://www.instagram.com/p/A/",
    video_url := "https://cdn.example/a.mp4" }

/-- Work item with identifier B. -/
def postB : VideoPost :=
  { shortcode := "B", url := "https://www.instagram.com/p/B/",
    video_url := "https://cdn.example/b.mp4" }

/-- Work item with identifier C. -/
def postC : VideoPost :=
  { shortcode := "C", url := "https://www.instagram.com/p/C/",
    video_url := "https://cdn.example/c.mp4" }

/-- Three-item input list A, B, C. -/
def vlABC : VideoList := { profile := "prof", videos := [postA, postB, postC] }

/-- Single-item input list B. -/
def vlB : VideoList := { profile := "prof", videos := [postB] }

/-- Ten-item input list V0..V9 with an empty ledger alongside. -/
def vl10 : VideoList :=
  { profile := "prof"
    videos := ["V0", "V1", "V2", "V3", "V4", "V5", "V6", "V7", "V8", "V9"].map
      (fun s => { shortcode := s, url := "u", video_url := "w" }) }

/-- Ledger that already records identifier A as completed. -/
def ledgerA : ProgressState :=
  { profile := "prof", processed_shortcodes := ["A"],
    results_file := "out/results_prof.jsonl" }

/-- Ledger with no completed identifiers. -/
def emptyLedger : ProgressState :=
  { profile := "prof", processed_shortcodes := [],
    results_file := "out/results_prof.jsonl" }

/-- Success analysis result for a post. -/
def okResult (v : VideoPost) : VideoResult :=
  { shortcode := v.shortcode, url := v.url, is_exercise_video := true }

/-- Failure analysis result for a post, carrying an error message. -/
def errResult (v : VideoPost) (msg : String) : VideoResult :=
  { shortcode := v.shortcode, url := v.url, is_exercise_video := false,
    error := some msg }

/-- Oracles where every download returns and every analysis succeeds. -/
def allOkOracles : Oracles :=
  { download := fun _ => Except.ok ()
    analyze := fun v => okResult v }

/-- Oracles where downloads return and analysis fails exactly on item B. -/
def failBOracles : Oracles :=
  { download := fun _ => Except.ok ()
    analyze := fun v =>
      if v.shortcode = "B" then errResult v "analysis failed" else okResult v }

/-- Oracles where downloads return and every analysis ends in a Failure
outcome. -/
def failAllOracles : Oracles :=
  { download := fun _ => Except.ok ()
    analyze := fun v => errResult v "upload failed" }

/-- Oracles where every download raises. -/
def downFailOracles : Oracles :=
  { download := fun _ => Except.error "connection reset"
    analyze := fun v => okResult v }

/-- Analyzer environment whose upload raises. -/
def envUploadFail : AnalyzerEnv :=
  { upload := Except.error "quota exceeded"
    primarySchema := Except.error "not attempted"
    fallbackSchema := Except.error "not attempted" }

/-! ### Claim theorems -/

/-- C9: for every behaviour of one `_process_video` call — Success
outcome, Failure outcome, or an escaping exception — the uniquely-named
temporary file created for that call no longer exists after the call
returns: the `finally` block deletes it on every exit path. -/
theorem C9_temp_file_deleted (b : ProcessFs) :
    (process_video_fs b).2 = false := by
  unfold process_video_fs
  cases hd : b.downloadResult <;> cases hf : b.fileAfterDownload <;> rfl

/-- C10: a configured cap of `max_videos = 0` is falsy in
`if max_videos:`, so no cap is applied at all — the run is identical to a
run with no cap configured, and every eligible item is handed to the item
processor (rather than zero items). -/
theorem C10_zero_cap_is_no_cap (o : Oracles) (vl : VideoList) (od : String)
    (pe : Bool) (pp : Option ProgressState) (sink0 : List VideoResult) :
    run_pipeline_from_file o vl od pe pp (some 0) sink0
        = run_pipeline_from_file o vl od pe pp none sink0
    ∧ attempted (run_pipeline_from_file o vl od pe pp (some 0) sink0).trace
        = (eligible vl.videos (skipOf vl od pe pp)).map (fun v => v.shortcode) := by
  constructor
  · unfold run_pipeline_from_file videosToProcess applyCap
    simp
  · rw [run_trace, attempted_itemsTrace]
    unfold videosToProcess applyCap
    simp

/-- C6: a ledger file whose content fails to parse or validate
(`parsed = none`) yields a fresh empty `ProgressState` with zero completed
identifiers and no propagated error, as does a missing ledger file; the
driver then hands the full input list to the item processor. -/
theorem C6_corrupt_ledger_recovery (profile od : String) (pp : Option ProgressState)
    (o : Oracles) (vl : VideoList) (sink0 : List VideoResult) :
    load_progress profile od true none = freshProgress profile od
    ∧ (load_progress profile od true none).processed_shortcodes = []
    ∧ load_progress profile od false pp = freshProgress profile od
    ∧ attempted (run_pipeline_from_file o vl od true none none sink0).trace
        = vl.videos.map (fun v => v.shortcode) := by
  refine ⟨rfl, rfl, rfl, ?_⟩
  rw [run_trace, attempted_itemsTrace]
  unfold videosToProcess applyCap skipOf load_progress freshProgress eligible
  simp

/-- C4 counterexample: a run over the single item B whose analysis ends in
a terminal Failure outcome appends no record at all to the Results Sink
(the code only appends when `result.error` is unset), refuting "one
durable record per completed item (success or terminal failure)". -/
theorem C4_counterexample :
    (run_pipeline_from_file failAllOracles vlB "out" false none none []).sink = []
    ∧ (run_pipeline_from_file failAllOracles vlB "out" false none none []).error_count = 1
    ∧ attempted (run_pipeline_from_file failAllOracles vlB "out" false none none []).trace
        = ["B"] := by
  refine ⟨rfl, rfl, rfl⟩

/-- C4 (amended): the Results Sink receives exactly one appended
line-delimited record per successfully completed item — a Failure outcome
produces no sink record — and pre-existing sink lines are never rewritten:
the final sink is the old content followed by the new success records in
processing order. -/
theorem C4_sink_success_only (o : Oracles) (vl : VideoList) (od : String)
    (pe : Bool) (pp : Option ProgressState) (cap : Option Int)
    (sink0 : List VideoResult) :
    (run_pipeline_from_file o vl od pe pp cap sink0).sink
        = sink0 ++ (successes o (videosToProcess vl od pe pp cap)).map o.analyze
    ∧ (run_pipeline_from_file o vl od pe pp cap sink0).sink.length
        = sink0.length + (successes o (videosToProcess vl od pe pp cap)).length := by
  refine ⟨run_sink o vl od pe pp cap sink0, ?_⟩
  rw [run_sink]
  simp

/-- C3 counterexample: `_process_video` contains no `except` clause, so an
exception raised by the download is NOT converted to a Failure outcome at
the Item Processor level — it escapes `_process_video` to the Driver,
refuting "this component never lets an exception escape to the Driver". -/
theorem C3_counterexample :
    process_video downFailOracles postB = Except.error "connection reset" := rfl

/-- C3 (amended): an exception raised during download escapes
`_process_video` to the Driver, whose per-item `except Exception` handler
catches it and moves on — every capped candidate item is still attempted,
so a failure in one item never aborts the batch; an exception raised
during analysis is caught inside `VideoAnalyzer.analyze` and converted to
a Failure outcome carrying the exception's message. -/
theorem C3_exception_handling (o : Oracles) (vl : VideoList) (od : String)
    (pe : Bool) (pp : Option ProgressState) (cap : Option Int)
    (sink0 : List VideoResult) (env : AnalyzerEnv) (sc e : String)
    (h : env.upload = Except.error e) :
    attempted (run_pipeline_from_file o vl od pe pp cap sink0).trace
        = (videosToProcess vl od pe pp cap).map (fun v => v.shortcode)
    ∧ (VideoAnalyzer.analyze env sc).error = some e := by
  constructor
  · rw [run_trace, attempted_itemsTrace]
  · unfold VideoAnalyzer.analyze
    rw [h]

/-- C3 witness: with every download raising, all three items of the A, B,
C list are still attempted, and an analyzer whose upload raises returns a
Failure outcome carrying the message. -/
theorem C3_witness :
    attempted (run_pipeline_from_file downFailOracles vlABC "out" false none none []).trace
        = ["A", "B", "C"]
    ∧ (VideoAnalyzer.analyze envUploadFail "B").error = some "quota exceeded" := by
  have h := C3_exception_handling downFailOracles vlABC "out" false none none []
      envUploadFail "B" "quota exceeded" rfl
  refine ⟨?_, h.2⟩
  rw [h.1]
  rfl

/-! ### Helpers for C1/C2/C5 -/

theorem pySlice_sublist (n : Int) (l : List VideoPost) :
    (pySlice n l).Sublist l := by
  unfold pySlice
  by_cases h : 0 ≤ n
  · simp only [h, if_true]
    exact List.take_sublist _ _
  · simp only [h, if_false]
    exact List.take_sublist _ _

theorem applyCap_sublist (cap : Option Int) (l : List VideoPost) :
    (applyCap cap l).Sublist l := by
  unfold applyCap
  cases cap with
  | none => exact List.Sublist.refl l
  | some n =>
    by_cases h : n = 0
    · simp only [h, if_true]
      exact List.Sublist.refl l
    · simp only [h, if_false]
      exact pySlice_sublist n l

theorem mem_eligible_iff (videos : List VideoPost) (skip : List String) (v : VideoPost) :
    v ∈ eligible videos skip ↔ v ∈ videos ∧ v.shortcode ∉ skip := by
  unfold eligible
  simp [List.mem_filter]

theorem videosToProcess_subset_eligible (vl : VideoList) (od : String) (pe : Bool)
    (pp : Option ProgressState) (cap : Option Int) (v : VideoPost)
    (hv : v ∈ videosToProcess vl od pe pp cap) :
    v ∈ eligible vl.videos (skipOf vl od pe pp) :=
  (applyCap_sublist cap _).subset hv

theorem length_filter_add_length_filter_not {α : Type} (p : α → Bool) (l : List α) :
    (l.filter p).length + (l.filter (fun a => ! p a)).length = l.length := by
  induction l with
  | nil => rfl
  | cons a l ih =>
    cases h : p a <;> simp [List.filter_cons, h] <;> omega

theorem eligible_length (videos : List VideoPost) (skip : List String) :
    (eligible videos skip).length
      = videos.length
          - (videos.filter (fun v => decide (v.shortcode ∈ skip))).length := by
  have h := length_filter_add_length_filter_not
      (fun v => decide (v.shortcode ∈ skip)) videos
  have he : eligible videos skip
      = videos.filter (fun v => ! decide (v.shortcode ∈ skip)) := by
    unfold eligible
    congr 1
    funext v
    simp [decide_not]
  rw [he]
  omega

/-- C1: in every run, the ledger is appended only for Success outcomes and
each ledger append is immediately preceded by the sink append for the same
identifier (the commit sub-trace is exactly sink-then-ledger pairs over
the successful items); the final ledger is the loaded ledger plus the
successful identifiers; and every item that ends in a Failure outcome is
absent from the final ledger and remains eligible in a subsequent run over
the same input list. -/
theorem C1_commit_order_and_retry (o : Oracles) (vl : VideoList) (od : String)
    (pe : Bool) (pp : Option ProgressState) (cap : Option Int)
    (sink0 : List VideoResult)
    (hnodup : (vl.videos.map (fun v => v.shortcode)).Nodup) :
    commitEvents (run_pipeline_from_file o vl od pe pp cap sink0).trace
        = commitsOf (successes o (videosToProcess vl od pe pp cap))
    ∧ (run_pipeline_from_file o vl od pe pp cap sink0).state.processed_shortcodes
        = skipOf vl od pe pp
            ++ (successes o (videosToProcess vl od pe pp cap)).map (fun v => v.shortcode)
    ∧ ∀ v ∈ videosToProcess vl od pe pp cap, itemSucceeds o v = false →
        v.shortcode ∉
          (run_pipeline_from_file o vl od pe pp cap sink0).state.processed_shortcodes
        ∧ v ∈ eligible vl.videos
            (run_pipeline_from_file o vl od pe pp cap sink0).state.processed_shortcodes := by
  refine ⟨?_, run_ledger o vl od pe pp cap sink0, ?_⟩
  · rw [run_trace, commitEvents_itemsTrace]
  · intro v hv hfail
    have hvE : v ∈ eligible vl.videos (skipOf vl od pe pp) :=
      videosToProcess_subset_eligible vl od pe pp cap v hv
    have hvV : v ∈ vl.videos := ((mem_eligible_iff _ _ _).1 hvE).1
    have hvS : v.shortcode ∉ skipOf vl od pe pp := ((mem_eligible_iff _ _ _).1 hvE).2
    have hnot : v.shortcode ∉
        (run_pipeline_from_file o vl od pe pp cap sink0).state.processed_shortcodes := by
      rw [run_ledger]
      intro hmem
      rcases List.mem_append.1 hmem with h1 | h2
      · exact hvS h1
      · rcases List.mem_map.1 h2 with ⟨w, hwS, hw⟩
        have hwT : w ∈ videosToProcess vl od pe pp cap :=
          (List.mem_filter.1 hwS).1
        have hwOk : itemSucceeds o w = true := (List.mem_filter.1 hwS).2
        have hwV : w ∈ vl.videos :=
          ((mem_eligible_iff _ _ _).1
            (videosToProcess_subset_eligible vl od pe pp cap w hwT)).1
        have hwv : w = v := List.inj_on_of_nodup_map hnodup hwV hvV hw
        rw [hwv] at hwOk
        rw [hfail] at hwOk
        exact Bool.noConfusion hwOk
    exact ⟨hnot, (mem_eligible_iff _ _ _).2 ⟨hvV, hnot⟩⟩

/-- C1 witness: the spec's concrete scenario — input A, B, C, ledger
already containing A, analysis failing on B and succeeding on C — commits
exactly the sink-then-ledger pair for C and leaves the ledger at A, C. -/
theorem C1_witness :
    (vlABC.videos.map (fun v => v.shortcode)).Nodup
    ∧ (run_pipeline_from_file failBOracles vlABC "out" true (some ledgerA) none
        []).state.processed_shortcodes = ["A", "C"]
    ∧ commitEvents (run_pipeline_from_file failBOracles vlABC "out" true (some ledgerA)
        none []).trace = [Event.sinkAppend "C", Event.ledgerAppend "C"] := by
  have h := C1_commit_order_and_retry failBOracles vlABC "out" true (some ledgerA)
      none [] (by decide)
  refine ⟨by decide, ?_, ?_⟩
  · rw [h.2.1]
    rfl
  · rw [h.1]
    rfl

/-- C2: with no cap configured, a run over N items of which k are already
recorded in the loaded ledger hands exactly the N−k not-yet-completed
items to the item processor, in input order, and — provided the downloads
return — invokes the analyzer exactly once for each of them, N−k times. -/
theorem C2_resumption_idempotence (o : Oracles) (vl : VideoList) (od : String)
    (s : ProgressState) (sink0 : List VideoResult) (N k : Nat)
    (hN : vl.videos.length = N)
    (hk : (vl.videos.filter
        (fun v => decide (v.shortcode ∈ s.processed_shortcodes))).length = k)
    (hkN : k < N)
    (hdl : ∀ v ∈ eligible vl.videos s.processed_shortcodes,
        o.download v = Except.ok ()) :
    attempted (run_pipeline_from_file o vl od true (some s) none sink0).trace
        = (eligible vl.videos s.processed_shortcodes).map (fun v => v.shortcode)
    ∧ (attempted (run_pipeline_from_file o vl od true (some s) none sink0).trace).length
        = N - k
    ∧ analyzerCalls (run_pipeline_from_file o vl od true (some s) none sink0).trace
        = (eligible vl.videos s.processed_shortcodes).map (fun v => v.shortcode) := by
  have htodo : videosToProcess vl od true (some s) none
      = eligible vl.videos s.processed_shortcodes := rfl
  refine ⟨?_, ?_, ?_⟩
  · rw [run_trace, attempted_itemsTrace, htodo]
  · rw [run_trace, attempted_itemsTrace, htodo, List.length_map,
      eligible_length, hk, hN]
  · rw [run_trace, analyzerCalls_itemsTrace, htodo]
    have hfl : (eligible vl.videos s.processed_shortcodes).filter (downloadOk o)
        = eligible vl.videos s.processed_shortcodes := by
      apply List.filter_eq_self.2
      intro v hv
      unfold downloadOk
      rw [hdl v hv]
    rw [hfl]

/-- C2 witness: A, B, C with A already in the ledger — two items attempted
and two analyzer calls, for B then C. -/
theorem C2_witness :
    vlABC.videos.length = 3
    ∧ (vlABC.videos.filter
        (fun v => decide (v.shortcode ∈ ledgerA.processed_shortcodes))).length = 1
    ∧ attempted (run_pipeline_from_file failBOracles vlABC "out" true (some ledgerA)
        none []).trace = ["B", "C"]
    ∧ analyzerCalls (run_pipeline_from_file failBOracles vlABC "out" true (some ledgerA)
        none []).trace = ["B", "C"] := by
  have h := C2_resumption_idempotence failBOracles vlABC "out" ledgerA [] 3 1
      rfl (by decide) (by decide) (fun v hv => rfl)
  refine ⟨rfl, by decide, ?_, ?_⟩
  · rw [h.1]
    rfl
  · rw [h.2.2]
    rfl

/-- C5: with a positive cap m configured, the driver hands only the first
m eligible items (in input order) to the item processor, and — provided
the downloads return — the analyzer is invoked exactly min(m, eligible)
times, once per taken item. -/
theorem C5_cap_enforcement (o : Oracles) (vl : VideoList) (od : String)
    (s : ProgressState) (sink0 : List VideoResult) (m : Int) (hm : 0 < m)
    (hdl : ∀ v ∈ videosToProcess vl od true (some s) (some m),
        o.download v = Except.ok ()) :
    videosToProcess vl od true (some s) (some m)
        = (eligible vl.videos s.processed_shortcodes).take m.toNat
    ∧ analyzerCalls (run_pipeline_from_file o vl od true (some s) (some m) sink0).trace
        = ((eligible vl.videos s.processed_shortcodes).take m.toNat).map
            (fun v => v.shortcode)
    ∧ (analyzerCalls (run_pipeline_from_file o vl od true (some s) (some m)
          sink0).trace).length
        = Nat.min m.toNat (eligible vl.videos s.processed_shortcodes).length := by
  have h0 : ¬ m = 0 := by omega
  have h1 : 0 ≤ m := le_of_lt hm
  have htodo : videosToProcess vl od true (some s) (some m)
      = (eligible vl.videos s.processed_shortcodes).take m.toNat := by
    unfold videosToProcess applyCap pySlice
    simp [h0, h1]
    rfl
  have hfl : (videosToProcess vl od true (some s) (some m)).filter (downloadOk o)
      = videosToProcess vl od true (some s) (some m) := by
    apply List.filter_eq_self.2
    intro v hv
    unfold downloadOk
    rw [hdl v hv]
  refine ⟨htodo, ?_, ?_⟩
  · rw [run_trace, analyzerCalls_itemsTrace, hfl, htodo]
  · rw [run_trace, analyzerCalls_itemsTrace, hfl, htodo, List.length_map,
      List.length_take]

/-- C5 witness: cap 3 over 10 eligible items — exactly three analyzer
invocations, for V0, V1, V2. -/
theorem C5_witness :
    (0 : Int) < 3
    ∧ analyzerCalls (run_pipeline_from_file allOkOracles vl10 "out" true
        (some emptyLedger) (some 3) []).trace = ["V0", "V1", "V2"]
    ∧ (analyzerCalls (run_pipeline_from_file allOkOracles vl10 "out" true
        (some emptyLedger) (some 3) []).trace).length = 3 := by
  have h := C5_cap_enforcement allOkOracles vl10 "out" emptyLedger [] 3
      (by decide) (fun v hv => rfl)
  refine ⟨by decide, ?_, ?_⟩
  · rw [h.2.1]
    rfl
  · rw [h.2.1]
    rfl

/-- C7: an operation under a 3-attempt Rate-Limited Retry Wrapper that
fails twice with a retryable condition and succeeds on the third attempt
returns the success value and sleeps exactly twice, the sleep before
re-attempt number a (a = 0, 1 counted from zero) being
clamp(multiplier * 2^a, min, max) for the policy's configured multiplier,
floor and ceiling. -/
theorem C7_retry_then_succeed {α : Type} (p : RetryPolicy)
    (op : Nat → Except PyExc α) (e1 e2 : PyExc) (v : α)
    (hstop : p.maxAttempts = 3)
    (h1 : op 1 = Except.error e1) (hr1 : p.retryOn e1 = true)
    (h2 : op 2 = Except.error e2) (hr2 : p.retryOn e2 = true)
    (h3 : op 3 = Except.ok v) :
    retryCall p op
      = RetryOutcome.ok v
          [clamp (p.wait.multiplier * 2 ^ 0) p.wait.min p.wait.max,
           clamp (p.wait.multiplier * 2 ^ 1) p.wait.min p.wait.max] := by
  unfold retryCall
  rw [hstop]
  show retryGo p op (2 + 1) 1 [] = _
  rw [retryGo_step_fail p op 2 1 [] e1 h1 hr1 (by omega)]
  show retryGo p op (1 + 1) 2 _ = _
  rw [retryGo_step_fail p op 1 2 _ e2 h2 hr2 (by omega)]
  show retryGo p op (0 + 1) 3 _ = _
  rw [retryGo_step_ok p op 0 3 _ v h3]
  simp [waitExponential, clamp, Nat.zero_max]

/-- Operation that fails with a connection error on attempts 1 and 2 and
returns 7 on attempt 3. -/
def flakyOp (n : Nat) : Except PyExc Nat :=
  if n < 3 then Except.error (PyExc.connectionException "reset") else Except.ok 7

/-- C7 witness: under the profile-fetch policy (multiplier 60, floor 60,
ceiling 300), a fail-fail-succeed operation returns 7 after sleeping 60s
then 120s. -/
theorem C7_witness :
    retryCall get_profile_policy flakyOp = RetryOutcome.ok 7 [60, 120] := by
  have h := C7_retry_then_succeed get_profile_policy flakyOp
      (PyExc.connectionException "reset") (PyExc.connectionException "reset") 7
      rfl rfl rfl rfl rfl rfl
  rw [h]
  rfl

/-- C8 counterexample: the `@retry` decoration on `download_video` retries
a generic exception kind (not only connection/bad-request ones), and its
backoff constants are multiplier 5, floor 5, ceiling 60 — not base 60 and
ceiling 300 — refuting the claimed network/connection policy. -/
theorem C8_counterexample :
    download_video_policy.retryOn (PyExc.runtimeError "disk full") = true
    ∧ waitExponential download_video_policy.wait 1 = 5
    ∧ ¬ waitExponential download_video_policy.wait 1 = 60
    ∧ download_video_policy.wait.max = 60
    ∧ ¬ download_video_policy.wait.max = 300 := by
  decide

/-- C8 (amended): the per-item payload download is wrapped in the broad
retry policy — every exception kind is retryable — with 3 attempts,
multiplier 5s, floor 5s and ceiling 60s, and a jittered throttle sleep
(base 5s plus a uniform jitter in 0..3s, so between 5s and 8s) occurs
before the network call of each attempt. -/
theorem C8_download_retry_policy (e : PyExc) (n : Nat) (jitter : ℚ) (url : String)
    (hj0 : 0 ≤ jitter) (hj3 : jitter ≤ 3) :
    download_video_policy.retryOn e = true
    ∧ download_video_policy.maxAttempts = 3
    ∧ waitExponential download_video_policy.wait n = clamp (5 * 2 ^ (n - 1)) 5 60
    ∧ download_video_body jitter url
        = [NetEvent.sleepFor (5 + jitter), NetEvent.urlretrieve url]
    ∧ 5 ≤ (5 + jitter : ℚ) ∧ (5 + jitter : ℚ) ≤ 8 := by
  refine ⟨rfl, rfl, ?_, rfl, by linarith, by linarith⟩
  simp [waitExponential, clamp, download_video_policy, Nat.zero_max]

/-- C8 witness: a generic timeout is retryable under the download policy,
the second back-off sleep is 10s, and the attempt body sleeps 6s (jitter
sampled at 1) before the network call. -/
theorem C8_witness :
    download_video_policy.retryOn (PyExc.otherError "timeout") = true
    ∧ waitExponential download_video_policy.wait 2 = 10
    ∧ download_video_body 1 "https://cdn.example/v.mp4"
        = [NetEvent.sleepFor 6, NetEvent.urlretrieve "https://cdn.example/v.mp4"] := by
  have h := C8_download_retry_policy (PyExc.otherError "timeout") 2 1
      "https://cdn.example/v.mp4" (by norm_num) (by norm_num)
  refine ⟨h.1, ?_, ?_⟩
  · rw [h.2.2.1]
    rfl
  · rw [h.2.2.2.1]
    have h6 : (5 + 1 : ℚ) = 6 := by norm_num
    rw [h6]

end Pipeline
